import Mathlib

/-!
Shallow embedding of the blog-API backend (`app/` package): token codec and
identity resolution (`app/dependencies/auth.py`), registration flow
(`app/routers/auth.py`), blog CRUD (`app/crud/blog.py`) and the blog router
(`app/routers/blogs.py`), together with proofs of the spec's properties.

Modelling conventions:
* The external relational data store is embedded as explicit lists of rows
  (`blogs`, `profiles` tables); its documented query contract
  (`select/eq/order/range/insert/update/delete`) is translated to list
  operations.
* The external JWT library is embedded by its documented contract: a token
  string is either malformed or a signed payload; the signature is modelled
  as an ideal MAC (the pair of secret and payload, so verification succeeds
  exactly when the same secret is used on the same payload); verification
  checks the signature and that the current time is before the embedded
  expiry. Timestamps are integers (seconds).
* Handlers are pure functions from the request plus current store state to
  the resulting store state and a result, where errors carry the HTTP
  status, detail and headers that the code raises.
-/

namespace BlogApi

/-- HTTP error raised by a handler (`HTTPException`): status code, detail
message, and extra response headers. -/
structure HTTPError where
  status : Nat
  detail : String
  headers : List (String × String)
deriving DecidableEq, Repr

/-- Row of the `profiles` table (also the shape of `UserResponse`, which is
constructed from such a row by `UserResponse(**user)`). -/
structure ProfileRow where
  id : String
  username : String
  email : String
  created_at : Int
deriving DecidableEq, Repr

/-- Response model of an authenticated user, built from a profile row. -/
abbrev UserResponse := ProfileRow

/-- Row of the `blogs` table. -/
structure BlogRow where
  id : String
  title : String
  body : String
  published : Bool
  author_id : String
  created_at : Int
  updated_at : Int
deriving DecidableEq, Repr

/-! ## Token codec (external JWT library contract + `app/dependencies/auth.py`) -/

/-- Decoded JWT payload: optional subject claim and absolute expiry time. -/
structure Payload where
  sub : Option String
  exp : Int
deriving DecidableEq, Repr

/-- A token string: it either fails to parse (malformed / tampered beyond
recognition) or parses to a payload with an attached signature. The
signature is an ideal MAC: the (secret, payload) pair it was produced
from. -/
inductive TokenStr where
  | malformed
  | jws (payload : Payload) (sig : String × Payload)
deriving DecidableEq, Repr

/-- Library encode (`jwt.encode`): sign the payload with the secret. -/
def jwtEncode (secret : String) (p : Payload) : TokenStr :=
  .jws p (secret, p)

/-- Library decode (`jwt.decode` with signature and expiry verification):
returns the payload when the signature matches the secret and the current
time is before the expiry, otherwise fails (the Python library raises
`JWTError`, which the caller turns into `None`). -/
def jwtDecode (secret : String) (now : Int) (t : TokenStr) : Option Payload :=
  match t with
  | .malformed => none
  | .jws p sig =>
      if sig = (secret, p) then
        if now < p.exp then some p else none
      else none

/-- Result of `decode_access_token`: the subject extracted from a valid
token. In the source this is the pydantic model `TokenData`; it is only
ever constructed with a present `user_id`. -/
structure TokenData where
  user_id : String
deriving DecidableEq, Repr

/-- Embeds `create_access_token`: encode `{"sub": sub, "exp": now + delta}`
where `delta` is `expires_delta or timedelta(minutes=access_token_expire_minutes)`.
Python's `or` tests truthiness, and `timedelta(0)` is falsy, so a missing
delta AND a zero delta both fall back to the default
`access_token_expire_minutes` (60) minutes. `expires_delta` and the
default are in seconds. -/
def create_access_token (secret : String) (access_token_expire_minutes : Int)
    (now : Int) (sub : Option String) (expires_delta : Option Int) : TokenStr :=
  let delta : Int :=
    match expires_delta with
    | none => access_token_expire_minutes * 60
    | some d => if d = 0 then access_token_expire_minutes * 60 else d
  jwtEncode secret { sub := sub, exp := now + delta }

/-- Embeds `decode_access_token`: decode and verify the JWT; on any
`JWTError` (malformed, signature mismatch, expired) return `none`; if the
payload has no `"sub"` claim return `none`; otherwise return the subject. -/
def decode_access_token (secret : String) (now : Int) (token : TokenStr) :
    Option TokenData :=
  match jwtDecode secret now token with
  | none => none
  | some payload =>
      match payload.sub with
      | none => none
      | some user_id => some { user_id := user_id }

/-! ## Profile store (`app/crud/user.py`) -/

/-- Embeds `get_user_by_id`: first row of `profiles` matching the id. -/
def get_user_by_id (profiles : List ProfileRow) (user_id : String) :
    Option ProfileRow :=
  (profiles.filter (fun r => r.id = user_id)).head?

/-- Embeds `get_user_by_email`: first row of `profiles` matching the email. -/
def get_user_by_email (profiles : List ProfileRow) (email : String) :
    Option ProfileRow :=
  (profiles.filter (fun r => r.email = email)).head?

/-- Embeds `create_user_profile`: insert a row into `profiles` and return
it. `now` stands for the database-assigned creation timestamp. -/
def create_user_profile (profiles : List ProfileRow) (user_id : String)
    (username : String) (email : String) (now : Int) :
    List ProfileRow × ProfileRow :=
  let row : ProfileRow :=
    { id := user_id, username := username, email := email, created_at := now }
  (profiles ++ [row], row)

/-! ## Identity resolution (`get_current_user`) -/

/-- The single 401 error raised by `get_current_user` in both failure
cases. -/
def credentials_exception : HTTPError :=
  { status := 401
    detail := "Could not validate credentials"
    headers := [("WWW-Authenticate", "Bearer")] }

/-- Embeds `get_current_user`: decode the bearer token; on failure raise
the credentials exception; otherwise look up the profile by the subject
id; if absent raise the same credentials exception; else return the
profile. -/
def get_current_user (secret : String) (now : Int)
    (profiles : List ProfileRow) (token : TokenStr) :
    Except HTTPError UserResponse :=
  match decode_access_token secret now token with
  | none => .error credentials_exception
  | some token_data =>
      match get_user_by_id profiles token_data.user_id with
      | none => .error credentials_exception
      | some user => .ok user

/-! ## Blog schemas (`app/models/blog.py`) -/

/-- Request body of `POST /blogs/` (`BlogCreate`): title, body, published.
There is no author field — `author_id` is taken from the JWT. -/
structure BlogCreate where
  title : String
  body : String
  published : Bool
deriving DecidableEq, Repr

/-- Request body of `PATCH /blogs/{id}` (`BlogUpdate`): every field
optional; `none` models an absent (or `null`) field, which
`model_dump(exclude_none=True)` drops from the update payload. -/
structure BlogUpdate where
  title : Option String
  body : Option String
  published : Option Bool
deriving DecidableEq, Repr

/-! ## Blog store (`app/crud/blog.py`) -/

/-- Embeds `get_blog`: first row of `blogs` matching the id, `none` when
the result set is empty. -/
def get_blog (blogs : List BlogRow) (blog_id : String) : Option BlogRow :=
  (blogs.filter (fun r => r.id = blog_id)).head?

/-- Insertion step of the data store's `order("created_at", desc=True)`:
place `x` before the first row whose `created_at` is not above it. -/
def insertByCreatedDesc (x : BlogRow) : List BlogRow → List BlogRow
  | [] => [x]
  | y :: ys =>
      if y.created_at ≤ x.created_at then x :: y :: ys
      else y :: insertByCreatedDesc x ys

/-- The data store's `order("created_at", desc=True)`: sort rows by
creation timestamp, newest first. -/
def orderByCreatedDesc : List BlogRow → List BlogRow
  | [] => []
  | x :: xs => insertByCreatedDesc x (orderByCreatedDesc xs)

/-- Embeds `get_blogs`: optionally filter to published rows, order by
`created_at` descending, and apply `range(skip, skip + limit - 1)` (an
inclusive row window, i.e. drop `skip` rows then take `limit`). -/
def get_blogs (blogs : List BlogRow) (skip : Nat) (limit : Nat)
    (published_only : Bool := true) : List BlogRow :=
  let query := if published_only then blogs.filter (fun r => r.published) else blogs
  ((orderByCreatedDesc query).drop skip).take limit

/-- Embeds `get_blogs_by_author`: all rows with the given `author_id`
(published or not), ordered by `created_at` descending. -/
def get_blogs_by_author (blogs : List BlogRow) (author_id : String) :
    List BlogRow :=
  orderByCreatedDesc (blogs.filter (fun r => r.author_id = author_id))

/-- Embeds crud `create_blog`: insert a row built from the request fields
plus the caller-supplied `author_id`; `gen_id` and `now` stand for the
database-assigned id and timestamps. Returns the new store and the created
row. -/
def crud_create_blog (blogs : List BlogRow) (blog : BlogCreate)
    (author_id : String) (gen_id : String) (now : Int) :
    List BlogRow × BlogRow :=
  let row : BlogRow :=
    { id := gen_id, title := blog.title, body := blog.body
      published := blog.published, author_id := author_id
      created_at := now, updated_at := now }
  (blogs ++ [row], row)

/-- Applies a non-empty update payload to one row: each provided field
replaces the stored one, absent fields are left as they were (the store
receives only the keys present in `model_dump(exclude_none=True)`). -/
def applyBlogUpdate (blog : BlogUpdate) (r : BlogRow) : BlogRow :=
  { r with
    title := blog.title.getD r.title
    body := blog.body.getD r.body
    published := blog.published.getD r.published }

/-- Embeds crud `update_blog`: when `model_dump(exclude_none=True)` is
empty (every field `none`) no update is issued and the existing record is
returned; otherwise every row matching the id is updated and the first
updated row is returned (`none` when no row matched). Returns the new
store and the returned record. -/
def crud_update_blog (blogs : List BlogRow) (blog_id : String)
    (blog : BlogUpdate) : List BlogRow × Option BlogRow :=
  if blog.title = none ∧ blog.body = none ∧ blog.published = none then
    (blogs, get_blog blogs blog_id)
  else
    let blogs' := blogs.map (fun r => if r.id = blog_id then applyBlogUpdate blog r else r)
    (blogs', (blogs'.filter (fun r => r.id = blog_id)).head?)

/-- Embeds crud `delete_blog`: remove every row matching the id; the
returned flag says whether anything was deleted. -/
def crud_delete_blog (blogs : List BlogRow) (blog_id : String) :
    List BlogRow × Bool :=
  (blogs.filter (fun r => ¬ r.id = blog_id),
   (blogs.filter (fun r => r.id = blog_id)).length > 0)

/-! ## Blog router (`app/routers/blogs.py`)

Each handler takes the store state and the already-resolved
`current_user` (FastAPI injects the result of `get_current_user` before
the handler body runs) and returns the resulting store paired with either
an `HTTPError` or the response value. -/

/-- The 403 error raised by `update_blog` and `delete_blog` when the
requester is not the author. -/
def forbiddenNotAuthor : HTTPError :=
  { status := 403, detail := "You are not the author of this blog", headers := [] }

/-- The 404 error raised by `update_blog` and `delete_blog` when the blog
does not exist. -/
def blogNotFound : HTTPError :=
  { status := 404, detail := "Blog not found", headers := [] }

/-- Embeds the `POST /blogs/` handler: create a blog for the
authenticated user; `author_id` is `str(current_user.id)`. Succeeds with
201 and the created row. -/
def route_create_blog (blogs : List BlogRow) (blog : BlogCreate)
    (current_user : UserResponse) (gen_id : String) (now : Int) :
    List BlogRow × Except HTTPError BlogRow :=
  let res := crud_create_blog blogs blog current_user.id gen_id now
  (res.1, .ok res.2)

/-- Embeds the `PATCH /blogs/{id}` handler: 404 when the blog does not
exist, 403 when the requester is not the author, otherwise perform the
partial update and return the updated record with 200. -/
def route_update_blog (blogs : List BlogRow) (blog_id : String)
    (blog : BlogUpdate) (current_user : UserResponse) :
    List BlogRow × Except HTTPError (Option BlogRow) :=
  match get_blog blogs blog_id with
  | none => (blogs, .error blogNotFound)
  | some existing =>
      if ¬ existing.author_id = current_user.id then
        (blogs, .error forbiddenNotAuthor)
      else
        let res := crud_update_blog blogs blog_id blog
        (res.1, .ok res.2)

/-- Embeds the `DELETE /blogs/{id}` handler: 404 when the blog does not
exist, 403 when the requester is not the author, otherwise delete it and
return 204 with no body. -/
def route_delete_blog (blogs : List BlogRow) (blog_id : String)
    (current_user : UserResponse) :
    List BlogRow × Except HTTPError Unit :=
  match get_blog blogs blog_id with
  | none => (blogs, .error blogNotFound)
  | some existing =>
      if ¬ existing.author_id = current_user.id then
        (blogs, .error forbiddenNotAuthor)
      else
        ((crud_delete_blog blogs blog_id).1, .ok ())

/-- Embeds the `GET /blogs/me` handler: all blogs (published or not) whose
author is the authenticated user. -/
def route_get_my_blogs (blogs : List BlogRow) (current_user : UserResponse) :
    List BlogRow :=
  get_blogs_by_author blogs current_user.id

/-- Embeds the `GET /blogs/` handler: public paginated list of published
blogs. -/
def route_get_blogs (blogs : List BlogRow) (skip : Nat := 0) (limit : Nat := 20) :
    List BlogRow :=
  get_blogs blogs skip limit

/-! ## Registration flow (`app/routers/auth.py`) -/

/-- Request body of `POST /auth/register` (`UserCreate`). -/
structure UserCreate where
  username : String
  email : String
  password : String
deriving DecidableEq, Repr

/-- Response model `Token`: the issued JWT. -/
structure Token where
  access_token : TokenStr
  token_type : String := "bearer"
deriving DecidableEq, Repr

/-- What the external auth provider's `sign_up` call does for this
request: raise `AuthApiError` with a message, succeed but return no user,
or succeed with the new identity id (`auth_response.user.id`). -/
inductive SignUpOutcome where
  | apiError (msg : String)
  | noUser
  | ok (user_id : String)
deriving DecidableEq, Repr

/-- External calls the register handler can make, recorded in order. -/
inductive RegStep where
  | checkEmail
  | providerSignUp
  | insertProfile
deriving DecidableEq, Repr

/-- Embeds the `POST /auth/register` handler.

Steps, in source order: (1) duplicate-email check against `profiles`
(400 when found); (2) `supabase_admin.auth.sign_up` — `AuthApiError`
becomes 400 with the provider message, a response without a user becomes
500; (3) insert the profile row keyed by the provider-assigned id;
(4) issue a JWT for that id (201). `signUp` is the provider's behaviour
for this request; the returned trace lists the external calls made, in
order. -/
def register (profiles : List ProfileRow) (signUp : SignUpOutcome)
    (user_data : UserCreate) (secret : String)
    (access_token_expire_minutes : Int) (now : Int) :
    List ProfileRow × List RegStep × Except HTTPError Token :=
  match get_user_by_email profiles user_data.email with
  | some _ =>
      (profiles, [.checkEmail],
       .error { status := 400
                detail := "An account with this email already exists"
                headers := [] })
  | none =>
      match signUp with
      | .apiError msg =>
          (profiles, [.checkEmail, .providerSignUp],
           .error { status := 400, detail := msg, headers := [] })
      | .noUser =>
          (profiles, [.checkEmail, .providerSignUp],
           .error { status := 500
                    detail := "Registration failed — Supabase Auth did not return a user"
                    headers := [] })
      | .ok uid =>
          let inserted :=
            create_user_profile profiles uid user_data.username user_data.email now
          let access_token :=
            create_access_token secret access_token_expire_minutes now (some uid) none
          (inserted.1, [.checkEmail, .providerSignUp, .insertProfile],
           .ok { access_token := access_token })

/-! ## Concrete sample data (used to evaluate the embedding on inputs) -/

/-- Sample profile of the author used in concrete evaluations. -/
def sampleOwner : UserResponse :=
  { id := "u1", username := "alice", email := "alice@example.com", created_at := 0 }

/-- Sample profile of a different authenticated user. -/
def sampleStranger : UserResponse :=
  { id := "u2", username := "bob", email := "bob@example.com", created_at := 0 }

/-- Sample published blog row authored by `sampleOwner`. -/
def sampleBlog : BlogRow :=
  { id := "b1", title := "Hello post", body := "Body text long enough"
    published := true, author_id := "u1", created_at := 1, updated_at := 1 }

/-- Sample unpublished blog row authored by `sampleOwner`. -/
def sampleDraft : BlogRow :=
  { id := "b2", title := "Draft post", body := "Another body of text"
    published := false, author_id := "u1", created_at := 2, updated_at := 2 }

/-- Sample published blog row authored by `sampleStranger`. -/
def sampleOther : BlogRow :=
  { id := "b3", title := "Other post", body := "Other body of text"
    published := true, author_id := "u2", created_at := 3, updated_at := 3 }

/-! ## Helper lemmas -/

/-- A hit from `get_blog` is a stored row carrying the requested id. -/
theorem get_blog_spec {blogs : List BlogRow} {blog_id : String} {b : BlogRow}
    (h : get_blog blogs blog_id = some b) : b ∈ blogs ∧ b.id = blog_id := by
  unfold get_blog at h
  cases hf : blogs.filter (fun r => r.id = blog_id) with
  | nil => rw [hf] at h; simp at h
  | cons c t =>
      rw [hf] at h
      simp only [List.head?, Option.some.injEq] at h
      have hc : b ∈ blogs.filter (fun r => r.id = blog_id) := by
        rw [hf, ← h]; exact List.mem_cons_self _ _
      have := List.mem_filter.mp hc
      simpa using this

/-- Membership is preserved by the sort's insertion step. -/
theorem mem_insertByCreatedDesc {a x : BlogRow} {l : List BlogRow} :
    a ∈ insertByCreatedDesc x l ↔ a = x ∨ a ∈ l := by
  induction l with
  | nil => simp [insertByCreatedDesc]
  | cons y ys ih =>
      simp only [insertByCreatedDesc]
      split
      · simp [List.mem_cons]
      · simp only [List.mem_cons, ih]
        tauto

/-- Membership is preserved by the newest-first sort. -/
theorem mem_orderByCreatedDesc {a : BlogRow} {l : List BlogRow} :
    a ∈ orderByCreatedDesc l ↔ a ∈ l := by
  induction l with
  | nil => simp [orderByCreatedDesc]
  | cons x xs ih => simp [orderByCreatedDesc, mem_insertByCreatedDesc, ih]

/-- The insertion step keeps the list sorted newest-first. -/
theorem pairwise_insertByCreatedDesc {x : BlogRow} {l : List BlogRow}
    (h : l.Pairwise (fun a b => b.created_at ≤ a.created_at)) :
    (insertByCreatedDesc x l).Pairwise (fun a b => b.created_at ≤ a.created_at) := by
  induction l with
  | nil => simp [insertByCreatedDesc]
  | cons y ys ih =>
      rcases List.pairwise_cons.mp h with ⟨hy, hys⟩
      simp only [insertByCreatedDesc]
      split
      · rename_i hle
        refine List.pairwise_cons.mpr ⟨?_, h⟩
        intro b hb
        rcases List.mem_cons.mp hb with rfl | hb
        · exact hle
        · exact le_trans (hy b hb) hle
      · rename_i hgt
        push_neg at hgt
        refine List.pairwise_cons.mpr ⟨?_, ih hys⟩
        intro b hb
        rcases mem_insertByCreatedDesc.mp hb with rfl | hb
        · exact le_of_lt hgt
        · exact hy b hb

/-- The sort produces a newest-first list. -/
theorem pairwise_orderByCreatedDesc (l : List BlogRow) :
    (orderByCreatedDesc l).Pairwise (fun a b => b.created_at ≤ a.created_at) := by
  induction l with
  | nil => simp [orderByCreatedDesc]
  | cons x xs ih => exact pairwise_insertByCreatedDesc ih

/-! ## Claim theorems -/

/-- C1: for every blog mutation request (PATCH or DELETE on an existing
blog) by an authenticated identity, an author mismatch fails with 403 and
leaves the store untouched, while an author match performs the mutation
and succeeds. -/
theorem ownership_gate_on_mutation (blogs : List BlogRow) (blog_id : String)
    (blog : BlogUpdate) (current_user : UserResponse) (existing : BlogRow)
    (hex : get_blog blogs blog_id = some existing) :
    (¬ existing.author_id = current_user.id →
        route_update_blog blogs blog_id blog current_user = (blogs, .error forbiddenNotAuthor)
      ∧ route_delete_blog blogs blog_id current_user = (blogs, .error forbiddenNotAuthor))
  ∧ (existing.author_id = current_user.id →
        route_update_blog blogs blog_id blog current_user
          = ((crud_update_blog blogs blog_id blog).1, .ok (crud_update_blog blogs blog_id blog).2)
      ∧ route_delete_blog blogs blog_id current_user
          = (blogs.filter (fun r => ¬ r.id = blog_id), .ok ())
      ∧ existing ∉ (route_delete_blog blogs blog_id current_user).1)
  ∧ forbiddenNotAuthor.status = 403 := by
  refine ⟨?_, ?_, rfl⟩
  · intro hne
    constructor
    · simp only [route_update_blog, hex]
      rw [if_pos hne]
    · simp only [route_delete_blog, hex]
      rw [if_pos hne]
  · intro heq
    have hnn : ¬ ¬ existing.author_id = current_user.id := not_not_intro heq
    have hdel : route_delete_blog blogs blog_id current_user
        = (blogs.filter (fun r => ¬ r.id = blog_id), .ok ()) := by
      simp only [route_delete_blog, hex]
      rw [if_neg hnn]
      rfl
    refine ⟨?_, hdel, ?_⟩
    · simp only [route_update_blog, hex]
      rw [if_neg hnn]
    · rw [hdel]
      intro hmem
      have hid := (get_blog_spec hex).2
      have := (List.mem_filter.mp hmem).2
      simp [hid] at this

/-- Witness for C1: on a one-row store, the non-author gets 403 with the
store unchanged, and the author's DELETE succeeds. -/
theorem ownership_gate_on_mutation_witness :
    route_update_blog [sampleBlog] "b1" { title := none, body := none, published := some false }
        sampleStranger = ([sampleBlog], .error forbiddenNotAuthor)
  ∧ route_delete_blog [sampleBlog] "b1" sampleOwner
        = ([], .ok ()) := by
  have h := ownership_gate_on_mutation [sampleBlog] "b1"
    { title := none, body := none, published := some false } sampleStranger sampleBlog
    (by decide)
  have h2 := ownership_gate_on_mutation [sampleBlog] "b1"
    { title := none, body := none, published := some false } sampleOwner sampleBlog
    (by decide)
  refine ⟨(h.1 (by decide)).1, ?_⟩
  have := (h2.2.1 (by decide)).2.1
  rw [this]
  exact congrArg (fun l => (l, Except.ok ())) (by decide)

/-- C2: mutating a nonexistent blog id fails with 404 for every request
body and every authenticated identity — the existence check precedes the
ownership comparison, so a missing id never yields the 403 error. -/
theorem missing_blog_yields_404 (blogs : List BlogRow) (blog_id : String)
    (h : get_blog blogs blog_id = none) :
    (∀ (blog : BlogUpdate) (current_user : UserResponse),
        route_update_blog blogs blog_id blog current_user = (blogs, .error blogNotFound))
  ∧ (∀ current_user : UserResponse,
        route_delete_blog blogs blog_id current_user = (blogs, .error blogNotFound))
  ∧ blogNotFound.status = 404 ∧ ¬ blogNotFound = forbiddenNotAuthor := by
  refine ⟨?_, ?_, rfl, by decide⟩
  · intro blog current_user
    simp only [route_update_blog, h]
  · intro current_user
    simp only [route_delete_blog, h]

/-- Witness for C2: on a store holding only `sampleBlog`, mutating the
absent id `"nope"` yields 404 for both handlers, whoever asks. -/
theorem missing_blog_yields_404_witness :
    route_update_blog [sampleBlog] "nope" { title := none, body := none, published := none }
        sampleStranger = ([sampleBlog], .error blogNotFound)
  ∧ route_delete_blog [sampleBlog] "nope" sampleOwner = ([sampleBlog], .error blogNotFound) := by
  have h := missing_blog_yields_404 [sampleBlog] "nope" (by decide)
  exact ⟨h.1 _ sampleStranger, h.2.1 sampleOwner⟩

/-- C3: every successful blog creation stores the resolved identity as
`author_id`; the request schema carries only title, body and published,
and those are stored as sent. -/
theorem create_blog_sets_author_from_identity (blogs : List BlogRow)
    (blog : BlogCreate) (current_user : UserResponse) (gen_id : String) (now : Int) :
    ∃ row : BlogRow,
      route_create_blog blogs blog current_user gen_id now = (blogs ++ [row], .ok row)
      ∧ row.author_id = current_user.id
      ∧ row.title = blog.title ∧ row.body = blog.body ∧ row.published = blog.published :=
  ⟨_, rfl, rfl, rfl, rfl, rfl⟩

/-- C4: identity resolution raises one and the same 401 error (same
status, detail and headers) whether token verification fails or the
verified subject has no profile, and on success returns the full profile
of the subject. -/
theorem get_current_user_uniform_401 (secret : String) (now : Int)
    (profiles : List ProfileRow) (token : TokenStr) :
    (decode_access_token secret now token = none →
        get_current_user secret now profiles token = .error credentials_exception)
  ∧ (∀ token_data, decode_access_token secret now token = some token_data →
        get_user_by_id profiles token_data.user_id = none →
        get_current_user secret now profiles token = .error credentials_exception)
  ∧ (∀ token_data user, decode_access_token secret now token = some token_data →
        get_user_by_id profiles token_data.user_id = some user →
        get_current_user secret now profiles token = .ok user)
  ∧ credentials_exception
      = { status := 401, detail := "Could not validate credentials"
          headers := [("WWW-Authenticate", "Bearer")] } := by
  refine ⟨?_, ?_, ?_, rfl⟩
  · intro h
    simp only [get_current_user, h]
  · intro token_data h1 h2
    simp only [get_current_user, h1, h2]
  · intro token_data user h1 h2
    simp only [get_current_user, h1, h2]

/-- Witness for C4: a malformed token, a valid token with no matching
profile, and a valid token with a matching profile, all at concrete
inputs. -/
theorem get_current_user_uniform_401_witness :
    get_current_user "s" 0 [] .malformed = .error credentials_exception
  ∧ get_current_user "s" 0 [] (jwtEncode "s" { sub := some "u1", exp := 10 })
      = .error credentials_exception
  ∧ get_current_user "s" 0 [sampleOwner] (jwtEncode "s" { sub := some "u1", exp := 10 })
      = .ok sampleOwner := by
  refine ⟨(get_current_user_uniform_401 "s" 0 [] .malformed).1 (by decide), ?_, ?_⟩
  · exact (get_current_user_uniform_401 "s" 0 [] _).2.1
      { user_id := "u1" } (by decide) (by decide)
  · exact (get_current_user_uniform_401 "s" 0 [sampleOwner] _).2.2.1
      { user_id := "u1" } sampleOwner (by decide) (by decide)

/-- C5: a token minted by `create_access_token` with the default 60-minute
expiry decodes, at any time before the expiry elapses, to the original
subject id. -/
theorem token_roundtrip_default_expiry (secret : String) (subject_id : String)
    (now t : Int) (hlo : now ≤ t) (hhi : t < now + 60 * 60) :
    decode_access_token secret t
        (create_access_token secret 60 now (some subject_id) none)
      = some { user_id := subject_id } := by
  simp [create_access_token, decode_access_token, jwtEncode, jwtDecode]
  rw [if_pos (show t < now + 3600 by omega)]

/-- Witness for C5: decoding immediately at the issuing instant returns
the subject. -/
theorem token_roundtrip_default_expiry_witness :
    (0 : Int) ≤ 0 ∧ (0 : Int) < 0 + 60 * 60
  ∧ decode_access_token "s" 0 (create_access_token "s" 60 0 (some "u1") none)
      = some { user_id := "u1" } :=
  ⟨le_refl 0, by decide,
   token_roundtrip_default_expiry "s" "u1" 0 0 (le_refl 0) (by decide)⟩

/-- C6 counterexample: a token issued with a zero expiry duration is NOT
invalid after any delay — `timedelta(0)` is falsy, so the zero delta
falls back to the 60-minute default, and the token still decodes to its
subject one second after issuance. -/
theorem zero_expiry_token_counterexample :
    decode_access_token "s" 1 (create_access_token "s" 60 0 (some "u1") (some 0))
      = some { user_id := "u1" }
  ∧ ¬ (decode_access_token "s" 1 (create_access_token "s" 60 0 (some "u1") (some 0))
        = none) :=
  ⟨by decide, by decide⟩

/-- C6 amended: token decoding returns `none` (rather than raising) on a
malformed token, on a signature made with a different secret, at or past
the embedded expiry, and on a payload without a subject claim; a token
issued with a zero expiry duration falls back to the default 60-minute
expiry, so it is invalid once that default duration has elapsed. -/
theorem decode_invalid_inputs (secret other : String) (now : Int)
    (p : Payload) (subject_id : String) (d : Int) :
    decode_access_token secret now .malformed = none
  ∧ (¬ other = secret →
        decode_access_token other now (jwtEncode secret p) = none)
  ∧ (p.exp ≤ now → decode_access_token secret now (jwtEncode secret p) = none)
  ∧ (p.sub = none → decode_access_token secret now (jwtEncode secret p) = none)
  ∧ (3600 ≤ d →
        decode_access_token secret (now + d)
          (create_access_token secret 60 now (some subject_id) (some 0)) = none) := by
  refine ⟨rfl, ?_, ?_, ?_, ?_⟩
  · intro h
    have hsig : ¬ ((secret, p) = (other, p)) := by
      intro hc
      exact h (congrArg Prod.fst hc).symm
    simp [decode_access_token, jwtDecode, jwtEncode, hsig]
  · intro h
    simp [decode_access_token, jwtDecode, jwtEncode, not_lt.mpr h]
  · intro h
    by_cases hexp : now < p.exp
    · simp [decode_access_token, jwtDecode, jwtEncode, hexp, h]
    · simp [decode_access_token, jwtDecode, jwtEncode, hexp]
  · intro h
    have hd : ¬ (now + d < now + 3600) := by omega
    simp [decode_access_token, create_access_token, jwtDecode, jwtEncode, hd]

/-- Witness for C6: each invalidity case evaluated at concrete inputs;
the zero-delta token is checked exactly when its defaulted 60-minute
expiry has elapsed. -/
theorem decode_invalid_inputs_witness :
    decode_access_token "s" 0 .malformed = none
  ∧ (¬ "other" = "s")
  ∧ decode_access_token "other" 0 (jwtEncode "s" { sub := some "u1", exp := 10 }) = none
  ∧ ((5 : Int) ≤ 5)
  ∧ decode_access_token "s" 5 (jwtEncode "s" { sub := some "u1", exp := 5 }) = none
  ∧ decode_access_token "s" 0 (jwtEncode "s" { sub := none, exp := 10 }) = none
  ∧ ((3600 : Int) ≤ 3600)
  ∧ decode_access_token "s" (0 + (3600 : Int))
        (create_access_token "s" 60 0 (some "u1") (some 0)) = none := by
  have h1 := decode_invalid_inputs "s" "other" 0 { sub := some "u1", exp := 10 } "u1" 0
  have h2 := decode_invalid_inputs "s" "other" 5 { sub := some "u1", exp := 5 } "u1" 0
  have h3 := decode_invalid_inputs "s" "other" 0 { sub := none, exp := 10 } "u1" 0
  have h4 := decode_invalid_inputs "s" "other" 0 { sub := some "u1", exp := 10 } "u1" 3600
  exact ⟨h1.1, by decide, h1.2.1 (by decide), by decide, h2.2.2.1 (by decide),
         h3.2.2.2.1 rfl, by decide, h4.2.2.2.2 (by decide)⟩

/-- C7: registering with an email that already has a profile row fails
with the 400 email-taken error, and the external provider's sign-up is
never called — the duplicate check strictly precedes any provider call. -/
theorem register_email_taken_before_provider (profiles : List ProfileRow)
    (signUp : SignUpOutcome) (user_data : UserCreate) (secret : String)
    (minutes now : Int) (p : ProfileRow)
    (h : get_user_by_email profiles user_data.email = some p) :
    register profiles signUp user_data secret minutes now
      = (profiles, [.checkEmail],
         .error { status := 400
                  detail := "An account with this email already exists"
                  headers := [] })
  ∧ RegStep.providerSignUp ∉ (register profiles signUp user_data secret minutes now).2.1 := by
  have hreg : register profiles signUp user_data secret minutes now
      = (profiles, [.checkEmail],
         .error { status := 400
                  detail := "An account with this email already exists"
                  headers := [] }) := by
    simp only [register, h]
  refine ⟨hreg, ?_⟩
  rw [hreg]
  show RegStep.providerSignUp ∉ [RegStep.checkEmail]
  decide

/-- Witness for C7: registering `sampleOwner`'s email again is rejected
without a provider call, even though the provider would have accepted. -/
theorem register_email_taken_before_provider_witness :
    get_user_by_email [sampleOwner] "alice@example.com" = some sampleOwner
  ∧ register [sampleOwner] (.ok "u9")
        { username := "alice2", email := "alice@example.com", password := "password1" }
        "s" 60 0
      = ([sampleOwner], [.checkEmail],
         .error { status := 400
                  detail := "An account with this email already exists"
                  headers := [] }) := by
  refine ⟨by decide, ?_⟩
  exact (register_email_taken_before_provider [sampleOwner] (.ok "u9")
    { username := "alice2", email := "alice@example.com", password := "password1" }
    "s" 60 0 sampleOwner (by decide)).1

/-- C9 counterexample: when the provider call returns without a user, the
register handler responds 500, which is neither 201 nor 400 — so not
every register request ends in 201 or 400. -/
theorem register_counterexample_500 :
    (register [] .noUser
        { username := "alice", email := "alice@example.com", password := "password1" }
        "s" 60 0).2.2
      = .error { status := 500
                 detail := "Registration failed — Supabase Auth did not return a user"
                 headers := [] }
  ∧ ¬ (500 = 201) ∧ ¬ (500 = 400) :=
  ⟨rfl, by decide, by decide⟩

/-- C9 amended: every register request ends in 201 with a token or 400,
except that a provider response carrying no user ends in 500. -/
theorem register_status_amended (profiles : List ProfileRow) (signUp : SignUpOutcome)
    (user_data : UserCreate) (secret : String) (minutes now : Int) :
    (∃ t, (register profiles signUp user_data secret minutes now).2.2 = .ok t)
  ∨ (∃ e, (register profiles signUp user_data secret minutes now).2.2 = .error e
        ∧ e.status = 400)
  ∨ (signUp = .noUser
      ∧ ∃ e, (register profiles signUp user_data secret minutes now).2.2 = .error e
          ∧ e.status = 500) := by
  cases hm : get_user_by_email profiles user_data.email with
  | some p =>
      right; left
      exact ⟨{ status := 400, detail := "An account with this email already exists"
               headers := [] },
             by simp [register, hm], rfl⟩
  | none =>
      cases signUp with
      | apiError msg =>
          right; left
          exact ⟨{ status := 400, detail := msg, headers := [] },
                 by simp [register, hm], rfl⟩
      | noUser =>
          right; right
          exact ⟨rfl,
                 { status := 500
                   detail := "Registration failed — Supabase Auth did not return a user"
                   headers := [] },
                 by simp [register, hm], rfl⟩
      | ok uid =>
          left
          exact ⟨{ access_token := create_access_token secret minutes now (some uid) none },
                 by simp [register, hm]⟩

/-- Normal form of the public listing handler. -/
theorem route_get_blogs_eq (blogs : List BlogRow) (skip limit : Nat) :
    route_get_blogs blogs skip limit
      = ((orderByCreatedDesc (blogs.filter (fun r => r.published))).drop skip).take limit :=
  rfl

/-- Normal form of the `GET /blogs/me` handler. -/
theorem route_get_my_blogs_eq (blogs : List BlogRow) (current_user : UserResponse) :
    route_get_my_blogs blogs current_user
      = orderByCreatedDesc (blogs.filter (fun r => r.author_id = current_user.id)) :=
  rfl

/-- C8: the unauthenticated listing returns only published blogs, newest
first, while `GET /blogs/me` returns exactly the blogs (published or not)
whose author is the authenticated identity. -/
theorem public_listing_and_my_blogs (blogs : List BlogRow) (skip limit : Nat)
    (current_user : UserResponse) :
    (∀ b ∈ route_get_blogs blogs skip limit, b.published = true)
  ∧ (route_get_blogs blogs skip limit).Pairwise (fun a b => b.created_at ≤ a.created_at)
  ∧ (∀ b : BlogRow, b ∈ route_get_my_blogs blogs current_user
        ↔ b ∈ blogs ∧ b.author_id = current_user.id) := by
  refine ⟨?_, ?_, ?_⟩
  · intro b hb
    rw [route_get_blogs_eq] at hb
    have h1 := List.take_subset _ _ hb
    have h2 := List.drop_subset _ _ h1
    have h3 := mem_orderByCreatedDesc.mp h2
    simpa using (List.mem_filter.mp h3).2
  · rw [route_get_blogs_eq]
    have hs : List.Sublist
        (((orderByCreatedDesc (blogs.filter (fun r => r.published))).drop skip).take limit)
        (orderByCreatedDesc (blogs.filter (fun r => r.published))) :=
      (List.take_sublist _ _).trans (List.drop_sublist _ _)
    exact (pairwise_orderByCreatedDesc _).sublist hs
  · intro b
    rw [route_get_my_blogs_eq, mem_orderByCreatedDesc, List.mem_filter]
    simp

/-- Witness for C8: on a three-row store the public listing contains the
published post by the owner, is newest-first, and `GET /blogs/me` for the
owner contains the unpublished draft. -/
theorem public_listing_and_my_blogs_witness :
    sampleBlog ∈ route_get_blogs [sampleBlog, sampleDraft, sampleOther] 0 20
  ∧ sampleBlog.published = true
  ∧ (route_get_blogs [sampleBlog, sampleDraft, sampleOther] 0 20).Pairwise
        (fun a b => b.created_at ≤ a.created_at)
  ∧ (sampleDraft ∈ route_get_my_blogs [sampleBlog, sampleDraft, sampleOther] sampleOwner
        ↔ sampleDraft ∈ [sampleBlog, sampleDraft, sampleOther]
            ∧ sampleDraft.author_id = sampleOwner.id) := by
  have h := public_listing_and_my_blogs [sampleBlog, sampleDraft, sampleOther] 0 20 sampleOwner
  exact ⟨by decide, h.1 sampleBlog (by decide), h.2.1, h.2.2 sampleDraft⟩

/-- Mapping the row updater with an all-empty payload changes nothing. -/
theorem map_applyBlogUpdate_id (blogs : List BlogRow) (blog_id : String) (blog : BlogUpdate)
    (h1 : blog.title = none) (h2 : blog.body = none) (h3 : blog.published = none) :
    blogs.map (fun r => if r.id = blog_id then applyBlogUpdate blog r else r) = blogs := by
  induction blogs with
  | nil => rfl
  | cons x xs ih =>
      simp only [List.map_cons, ih]
      congr 1
      split
      · simp [applyBlogUpdate, h1, h2, h3]
      · rfl

/-- C10: an owner PATCH stores exactly the supplied (non-`None`) fields —
all other fields and all other rows are unchanged — and an update payload
with no fields issues no store update and returns the existing record
with success. -/
theorem patch_partial_update_frame (blogs : List BlogRow) (blog_id : String)
    (blog : BlogUpdate) (current_user : UserResponse) (existing : BlogRow)
    (hex : get_blog blogs blog_id = some existing)
    (hown : existing.author_id = current_user.id) :
    (route_update_blog blogs blog_id blog current_user).1
        = blogs.map (fun r => if r.id = blog_id then applyBlogUpdate blog r else r)
  ∧ (∀ r : BlogRow,
        (blog.title = none → (applyBlogUpdate blog r).title = r.title)
      ∧ (blog.body = none → (applyBlogUpdate blog r).body = r.body)
      ∧ (blog.published = none → (applyBlogUpdate blog r).published = r.published)
      ∧ (applyBlogUpdate blog r).id = r.id
      ∧ (applyBlogUpdate blog r).author_id = r.author_id
      ∧ (applyBlogUpdate blog r).created_at = r.created_at
      ∧ (applyBlogUpdate blog r).updated_at = r.updated_at)
  ∧ (blog.title = none ∧ blog.body = none ∧ blog.published = none →
        route_update_blog blogs blog_id blog current_user = (blogs, .ok (some existing))) := by
  have hnn : ¬ ¬ existing.author_id = current_user.id := not_not_intro hown
  refine ⟨?_, ?_, ?_⟩
  · simp only [route_update_blog, hex]
    rw [if_neg hnn]
    show (crud_update_blog blogs blog_id blog).1 = _
    unfold crud_update_blog
    split
    · rename_i hempty
      exact (map_applyBlogUpdate_id blogs blog_id blog hempty.1 hempty.2.1 hempty.2.2).symm
    · rfl
  · intro r
    refine ⟨?_, ?_, ?_, rfl, rfl, rfl, rfl⟩
    · intro h; simp [applyBlogUpdate, h]
    · intro h; simp [applyBlogUpdate, h]
    · intro h; simp [applyBlogUpdate, h]
  · intro hempty
    simp only [route_update_blog, hex]
    rw [if_neg hnn]
    show ((crud_update_blog blogs blog_id blog).1,
          Except.ok (crud_update_blog blogs blog_id blog).2)
        = (blogs, Except.ok (some existing))
    unfold crud_update_blog
    rw [if_pos hempty, hex]

/-- Witness for C10: an empty PATCH by the owner returns the record
unchanged without touching the store, and an absent title stays as it
was. -/
theorem patch_partial_update_frame_witness :
    route_update_blog [sampleBlog] "b1" { title := none, body := none, published := none }
        sampleOwner = ([sampleBlog], .ok (some sampleBlog))
  ∧ (applyBlogUpdate { title := none, body := none, published := some false } sampleBlog).title
        = sampleBlog.title := by
  have h := patch_partial_update_frame [sampleBlog] "b1"
      { title := none, body := none, published := none } sampleOwner sampleBlog
      (by decide) (by decide)
  have h2 := patch_partial_update_frame [sampleBlog] "b1"
      { title := none, body := none, published := some false } sampleOwner sampleBlog
      (by decide) (by decide)
  exact ⟨h.2.2 ⟨rfl, rfl, rfl⟩, (h2.2.1 sampleBlog).1 rfl⟩

end BlogApi
